import Mathlib

/-!
Shallow embedding of the scaling-decision core of the `autoscaler` service
(`src/main.go`).  The decision engine is the body of `handleAutoscale`
(lines 151-263) together with the configuration loader `getEnvVariables`
(lines 29-103).

Modelling conventions:
* Go `int32`/`int64` replica and counter fields are modelled as `Int`;
  the one place where the source performs a narrowing conversion whose
  wraparound is observable (`int32(replicas)` on the fixed-override path,
  main.go line 185) is modelled explicitly by `toInt32`.
* Go `float64` arithmetic (thresholds, `math.Ceil` of quotients and
  products) is modelled by exact rational arithmetic over `ℚ` with
  `Int.ceil`.  In the value ranges the program operates on (replica
  counts fitting `int32`, counters far below `2^53`) `float64` division
  and `math.Ceil` agree exactly with the rational model.
* `strconv.Atoi` (= `ParseInt` base 10, 64-bit) is modelled by `atoi`,
  including the sign handling and the 64-bit range failure (`ErrRange`
  makes `err != nil`, which the handler treats as malformed input).
* Environment lookup plus `strconv.ParseFloat` / `ParseInt` for the
  configuration is abstracted per variable by `EnvVal`: a variable is
  unset, or set but malformed (parse error), or set and parsed to a
  value.  `FIXED_REPLICAS` is read as a raw string (no parse, main.go
  lines 80-88), hence `Option String`.
* The HTTP transport (JSON decoding, TLS, the UID echo) is out of scope;
  a request is its decoded payload, a rejected request (`http.Error`
  with status 400, lines 174 and 180) is `Except.error`.
-/

/-- Configuration snapshot: the package-level variables of main.go
(lines 17-24) after `getEnvVariables` ran. -/
structure Config where
  scaleFactor : ℚ
  replicaUpperThreshold : ℚ
  replicaLowerThreshold : ℚ
  minReplicasCount : Int
  maxReplicasCount : Int
  fixedReplicasOverrideEnabled : Bool
  deriving Repr, DecidableEq

/-- One aggregated counter, `agones` `AggregatedCounterStatus`:
the fields of `Status.Counters["rooms"]` read by the handler. -/
structure Counter where
  count : Int
  capacity : Int
  deriving Repr, DecidableEq

/-- The fleet status fields read by the handler
(`faReq.Request.Status`). `counters = none` models a nil map. -/
structure FleetStatus where
  replicas : Int
  allocatedReplicas : Int
  counters : Option (List (String × Counter))
  deriving Repr, DecidableEq

/-- The request fields read by the handler (`faReq.Request`).
`annotations = none` models a nil annotations map. -/
structure FleetAutoscaleRequest where
  status : FleetStatus
  annotations : Option (List (String × String))
  deriving Repr, DecidableEq

/-- The response fields computed by the handler (`faResp.Scale`,
`faResp.Replicas`); the UID echo is transport glue. -/
structure Decision where
  scale : Bool
  replicas : Int
  deriving Repr, DecidableEq

/-- Go map indexing `m[k]`, modelled on an association list. -/
def lookupKV {α : Type} (m : List (String × α)) (k : String) : Option α :=
  (m.find? (fun p => p.1 == k)).map (fun p => p.2)

/-- The value of `faReq.Request.Annotations["fixedReplicas"]`
(main.go lines 169-170); `none` when the map is nil or lacks the key. -/
def fixedReplicasValue (req : FleetAutoscaleRequest) : Option String :=
  req.annotations.bind (fun a => lookupKV a "fixedReplicas")

/-- The value of `faReq.Request.Status.Counters["rooms"]`
(main.go lines 193-194); `none` when the map is nil or lacks the key. -/
def roomsCounter (st : FleetStatus) : Option Counter :=
  st.counters.bind (fun cs => lookupKV cs "rooms")

/-- Decimal digit value of a character, as `strconv` accepts it. -/
def digitVal (c : Char) : Option Nat :=
  if '0' ≤ c ∧ c ≤ '9' then some (c.toNat - '0'.toNat) else none

/-- Value of a nonempty all-digit character list; `none` on an empty
list or any non-digit. -/
def digitsVal (cs : List Char) : Option Nat :=
  if cs.isEmpty then none
  else
    cs.foldl
      (fun acc c =>
        match acc, digitVal c with
        | some n, some d => some (10 * n + d)
        | _, _ => none)
      (some 0)

/-- `strconv.Atoi` (main.go line 171): optional single sign followed by
decimal digits, rejecting anything else and values outside the 64-bit
signed range (Go returns `ErrRange`, and the handler only checks
`err != nil`, so a range failure is treated like a syntax failure). -/
def atoi (s : String) : Option Int :=
  match s.toList with
  | '+' :: rest =>
      (digitsVal rest).bind
        (fun n => if (n : Int) ≤ 2 ^ 63 - 1 then some (n : Int) else none)
  | '-' :: rest =>
      (digitsVal rest).bind
        (fun n => if (n : Int) ≤ 2 ^ 63 then some (-(n : Int)) else none)
  | cs =>
      (digitsVal cs).bind
        (fun n => if (n : Int) ≤ 2 ^ 63 - 1 then some (n : Int) else none)

/-- Go `int32(v)` for an `int` value `v`: two's-complement wraparound
(main.go line 185). -/
def toInt32 (v : Int) : Int :=
  (v + 2 ^ 31) % 2 ^ 32 - 2 ^ 31

/-- `math.Ceil` of an exact rational value, in executable form:
`⌈q⌉ = -⌊-q⌋` with the floor computed from the reduced fraction. -/
def ceilQ (q : ℚ) : Int :=
  -((-q).num / ((-q).den : Int))

/-- The final `MAX_REPLICAS_COUNT` enforcement applied just before the
response is encoded (main.go lines 256-260).  Note it runs on every
path except the capacity-counter early return (line 231), and it sets
`Scale = true` when it caps. -/
def finalClamp (cfg : Config) (d : Decision) : Decision :=
  if 0 < cfg.maxReplicasCount ∧ cfg.maxReplicasCount < d.replicas then
    { scale := true, replicas := cfg.maxReplicasCount }
  else d

/-- `capPerReplica` (main.go line 199): fixed at 5.0. -/
def capPerReplica : ℚ := 5

/-- The capacity-counter computation (main.go lines 198-223), reached
when the "rooms" counter is present with `Capacity > 0` and
`Replicas > 0`.  Both clamps apply the min bound first, then the max
bound when `maxReplicasCount > 0`. -/
def capacityDecision (cfg : Config) (current : Int) (room : Counter) : Decision :=
  let desired := ceilQ ((room.count : ℚ) / capPerReplica)
  let desired := if desired < cfg.minReplicasCount then cfg.minReplicasCount else desired
  let desired :=
    if 0 < cfg.maxReplicasCount ∧ cfg.maxReplicasCount < desired then
      cfg.maxReplicasCount
    else desired
  let next := ceilQ ((desired : ℚ) * cfg.scaleFactor)
  let next := if next < cfg.minReplicasCount then cfg.minReplicasCount else next
  let next :=
    if 0 < cfg.maxReplicasCount ∧ cfg.maxReplicasCount < next then
      cfg.maxReplicasCount
    else next
  if next ≠ current then { scale := true, replicas := next }
  else { scale := false, replicas := current }

/-- The utilization-threshold computation (main.go lines 235-249),
reached when `Replicas != 0` and no applicable capacity counter exists.
The up-scale branch clamps to the max bound; the down-scale branch has
no clamp at all in the source. -/
def thresholdDecision (cfg : Config) (st : FleetStatus) : Decision :=
  let allocatedPercent := (st.allocatedReplicas : ℚ) / (st.replicas : ℚ)
  if cfg.replicaUpperThreshold < allocatedPercent then
    let next := ceilQ ((st.replicas : ℚ) * cfg.scaleFactor)
    let next :=
      if 0 < cfg.maxReplicasCount ∧ cfg.maxReplicasCount < next then
        cfg.maxReplicasCount
      else next
    { scale := true, replicas := next }
  else if allocatedPercent < cfg.replicaLowerThreshold ∧
      cfg.minReplicasCount < st.replicas then
    { scale := true, replicas := ceilQ ((st.replicas : ℚ) / cfg.scaleFactor) }
  else
    { scale := false, replicas := st.replicas }

/-- The decision core of `handleAutoscale` (main.go lines 162-263) on a
decoded request.  `Except.error` models the two `http.Error(..., 400)`
rejections of the fixed-override path; every other path encodes a
response.  The capacity-counter path returns before the final clamp
(line 231); all other paths pass through `finalClamp`. -/
def handleAutoscale (cfg : Config) (req : FleetAutoscaleRequest) :
    Except String Decision :=
  let current := req.status.replicas
  let base : Decision := { scale := false, replicas := current }
  if cfg.fixedReplicasOverrideEnabled then
    match fixedReplicasValue req with
    | some value =>
        match atoi value with
        | none => Except.error "Invalid fixedReplicas value. Must be an integer."
        | some replicas =>
            if replicas < 0 then
              Except.error "Invalid fixedReplicas value. Must be >= 0."
            else
              Except.ok (finalClamp cfg { scale := true, replicas := toInt32 replicas })
    | none => Except.ok (finalClamp cfg base)
  else if current ≠ 0 then
    match roomsCounter req.status with
    | some room =>
        if 0 < room.capacity ∧ 0 < current then
          Except.ok (capacityDecision cfg current room)
        else
          Except.ok (finalClamp cfg (thresholdDecision cfg req.status))
    | none => Except.ok (finalClamp cfg (thresholdDecision cfg req.status))
  else
    Except.ok (finalClamp cfg base)

/-- The three possible results of reading one environment variable and
parsing it: unset, set but unparsable (the handler logs and exits), or
parsed to a value. -/
inductive EnvVal (α : Type) where
  | unset : EnvVal α
  | malformed : EnvVal α
  | parsed : α → EnvVal α
  deriving Repr, DecidableEq

/-- The environment as `getEnvVariables` reads it: one slot per
variable, each already run through its `strconv` parse
(`ParseFloat 64` for the first three, `ParseInt 10 32` for the two
counts — an out-of-int32-range value is a parse error there).
`FIXED_REPLICAS` is compared to the literal string "true"
(main.go lines 80-88), so it is kept raw. -/
structure Env where
  scaleFactorV : EnvVal ℚ
  upTriggerV : EnvVal ℚ
  downTriggerV : EnvVal ℚ
  minReplicasV : EnvVal Int
  maxReplicasV : EnvVal Int
  fixedReplicasV : Option String
  deriving Repr, DecidableEq

/-- `getEnvVariables` (main.go lines 29-103). `none` models
`os.Exit(1)` on a parse failure; a value that parses but fails its
range guard leaves the package-level default in place.  The
`REPLICA_DOWNSCALE_TRIGGER` guard (line 55) uses the scale factor and
upper threshold already updated by the earlier blocks.  The two
cross-field normalizations of lines 95-102 run at the end. -/
def getEnvVariables (env : Env) : Option Config := do
  let sf ←
    match env.scaleFactorV with
    | .malformed => none
    | .parsed f => some (if 1 < f then f else (2 : ℚ))
    | .unset => some (2 : ℚ)
  let upper ←
    match env.upTriggerV with
    | .malformed => none
    | .parsed t => some (if 1 / 10 < t then t else (7 / 10 : ℚ))
    | .unset => some (7 / 10 : ℚ)
  let lower ←
    match env.downTriggerV with
    | .malformed => none
    | .parsed t => some (if t < upper / sf then t else (3 / 10 : ℚ))
    | .unset => some (3 / 10 : ℚ)
  let minR ←
    match env.minReplicasV with
    | .malformed => none
    | .parsed m => some (if 0 ≤ m then m else (2 : Int))
    | .unset => some (2 : Int)
  let maxR ←
    match env.maxReplicasV with
    | .malformed => none
    | .parsed m => some (if 0 ≤ m then m else (0 : Int))
    | .unset => some (0 : Int)
  let fixedEnabled :=
    match env.fixedReplicasV with
    | some s => s == "true"
    | none => false
  let lower := if upper / sf ≤ lower then upper / (sf + 1) else lower
  let minR := if 0 < maxR ∧ maxR < minR then maxR else minR
  some
    { scaleFactor := sf
      replicaUpperThreshold := upper
      replicaLowerThreshold := lower
      minReplicasCount := minR
      maxReplicasCount := maxR
      fixedReplicasOverrideEnabled := fixedEnabled }

/-- Clamp to `[minReplicasCount, maxReplicasCount-or-unbounded]` in the
order the capacity path applies it: raise to the min bound, then cap at
the max bound when one is set. -/
def clampBounds (cfg : Config) (x : Int) : Int :=
  let y := if x < cfg.minReplicasCount then cfg.minReplicasCount else x
  if 0 < cfg.maxReplicasCount ∧ cfg.maxReplicasCount < y then
    cfg.maxReplicasCount
  else y

/-- Net effect of the `SCALE_FACTOR` block (main.go lines 30-38) on a
run that does not exit: the parsed value when it passes `factor > 1`,
otherwise the compiled-in default 2. -/
def effScaleFactor (env : Env) : ℚ :=
  match env.scaleFactorV with
  | .parsed f => if 1 < f then f else 2
  | _ => 2

/-- Net effect of the `REPLICA_UPSCALE_TRIGGER` block (lines 40-48). -/
def effUpperThreshold (env : Env) : ℚ :=
  match env.upTriggerV with
  | .parsed t => if 1 / 10 < t then t else 7 / 10
  | _ => 7 / 10

/-- Net effect of the `REPLICA_DOWNSCALE_TRIGGER` block (lines 50-58);
its guard reads the scale factor and upper threshold already updated by
the earlier blocks. -/
def effLowerThreshold (env : Env) : ℚ :=
  match env.downTriggerV with
  | .parsed t =>
      if t < effUpperThreshold env / effScaleFactor env then t else 3 / 10
  | _ => 3 / 10

/-- Net effect of the `MIN_REPLICAS_COUNT` block (lines 60-68). -/
def effMinReplicas (env : Env) : Int :=
  match env.minReplicasV with
  | .parsed m => if 0 ≤ m then m else 2
  | _ => 2

/-- Net effect of the `MAX_REPLICAS_COUNT` block (lines 70-78). -/
def effMaxReplicas (env : Env) : Int :=
  match env.maxReplicasV with
  | .parsed m => if 0 ≤ m then m else 0
  | _ => 0

/-- Net effect of the `FIXED_REPLICAS` block (lines 80-88). -/
def effFixedEnabled (env : Env) : Bool :=
  match env.fixedReplicasV with
  | some s => s == "true"
  | none => false

/-- No explicitly set variable failed its parse (no `os.Exit(1)`). -/
def noParseFailure (env : Env) : Prop :=
  env.scaleFactorV ≠ .malformed ∧ env.upTriggerV ≠ .malformed ∧
    env.downTriggerV ≠ .malformed ∧ env.minReplicasV ≠ .malformed ∧
    env.maxReplicasV ≠ .malformed

lemma ceilQ_eq_ceil (q : ℚ) : ceilQ q = ⌈q⌉ := by
  rw [ceilQ, ← Rat.floor_def, Int.floor_neg, neg_neg]

lemma ceilQ_eq_iff {q : ℚ} {z : Int} :
    ceilQ q = z ↔ (z : ℚ) - 1 < q ∧ q ≤ (z : ℚ) := by
  rw [ceilQ_eq_ceil]; exact Int.ceil_eq_iff

lemma ceilQ_mono {a b : ℚ} (h : a ≤ b) : ceilQ a ≤ ceilQ b := by
  rw [ceilQ_eq_ceil, ceilQ_eq_ceil]; exact Int.ceil_mono h

lemma le_ceilQ (q : ℚ) : q ≤ (ceilQ q : ℚ) := by
  rw [ceilQ_eq_ceil]; exact Int.le_ceil q

lemma lt_ceilQ {z : Int} {q : ℚ} : z < ceilQ q ↔ (z : ℚ) < q := by
  rw [ceilQ_eq_ceil]; exact Int.lt_ceil

lemma ceilQ_intCast (z : Int) : ceilQ (z : ℚ) = z := by
  rw [ceilQ_eq_ceil]; exact Int.ceil_intCast z

/-- Branch characterization: fixed override enabled with a present,
well-formed, nonnegative annotation value (main.go lines 168-186
followed by the final clamp of lines 256-260). -/
lemma handleAutoscale_override_ok (cfg : Config) (req : FleetAutoscaleRequest)
    (s : String) (v : Int)
    (hover : cfg.fixedReplicasOverrideEnabled = true)
    (hs : fixedReplicasValue req = some s)
    (hv : atoi s = some v) (h0 : 0 ≤ v) :
    handleAutoscale cfg req =
      Except.ok (finalClamp cfg { scale := true, replicas := toInt32 v }) := by
  simp [handleAutoscale, hover, hs, hv, not_lt.mpr h0]

/-- Branch characterization: fixed override enabled but no annotation
value (nil map or missing key): the initial no-scale response goes
straight to the final clamp. -/
lemma handleAutoscale_override_missing (cfg : Config) (req : FleetAutoscaleRequest)
    (hover : cfg.fixedReplicasOverrideEnabled = true)
    (hs : fixedReplicasValue req = none) :
    handleAutoscale cfg req =
      Except.ok (finalClamp cfg { scale := false, replicas := req.status.replicas }) := by
  simp [handleAutoscale, hover, hs]

/-- Branch characterization: the capacity-counter early return
(main.go lines 197-232). -/
lemma handleAutoscale_capacity (cfg : Config) (req : FleetAutoscaleRequest)
    (room : Counter)
    (hover : cfg.fixedReplicasOverrideEnabled = false)
    (hroom : roomsCounter req.status = some room)
    (hcap : 0 < room.capacity) (hcur : 0 < req.status.replicas) :
    handleAutoscale cfg req =
      Except.ok (capacityDecision cfg req.status.replicas room) := by
  have hne : req.status.replicas ≠ 0 := ne_of_gt hcur
  simp [handleAutoscale, hover, hroom, hcap, hcur, hne]

/-- Branch characterization: the utilization-threshold path
(main.go lines 235-249 followed by the final clamp). -/
lemma handleAutoscale_threshold (cfg : Config) (req : FleetAutoscaleRequest)
    (hover : cfg.fixedReplicasOverrideEnabled = false)
    (hcur : req.status.replicas ≠ 0)
    (hnoroom : ∀ room, roomsCounter req.status = some room →
      ¬(0 < room.capacity ∧ 0 < req.status.replicas)) :
    handleAutoscale cfg req =
      Except.ok (finalClamp cfg (thresholdDecision cfg req.status)) := by
  cases hr : roomsCounter req.status with
  | none => simp [handleAutoscale, hover, hcur, hr]
  | some room => simp [handleAutoscale, hover, hcur, hr, hnoroom room hr]

/-- Branch characterization: zero current replicas with no applicable
override (main.go line 188 guard fails, response unchanged). -/
lemma handleAutoscale_zero (cfg : Config) (req : FleetAutoscaleRequest)
    (hcur : req.status.replicas = 0)
    (hover : cfg.fixedReplicasOverrideEnabled = true → fixedReplicasValue req = none) :
    handleAutoscale cfg req =
      Except.ok (finalClamp cfg { scale := false, replicas := req.status.replicas }) := by
  by_cases h : cfg.fixedReplicasOverrideEnabled
  · simp [handleAutoscale, h, hover h]
  · simp [handleAutoscale, eq_false_of_ne_true h, hcur]


/-- `capacityDecision` with the two sequential clamps folded into
`clampBounds` (definitional restatement, zeta-reduced). -/
lemma capacityDecision_def (cfg : Config) (current : Int) (room : Counter) :
    capacityDecision cfg current room =
      (if clampBounds cfg
            (ceilQ ((clampBounds cfg (ceilQ ((room.count : ℚ) / capPerReplica)) : Int) *
              cfg.scaleFactor)) ≠ current then
        { scale := true,
          replicas :=
            clampBounds cfg
              (ceilQ ((clampBounds cfg (ceilQ ((room.count : ℚ) / capPerReplica)) : Int) *
                cfg.scaleFactor)) }
      else { scale := false, replicas := current }) := rfl

/-- `thresholdDecision` zeta-reduced (definitional restatement). -/
lemma thresholdDecision_def (cfg : Config) (st : FleetStatus) :
    thresholdDecision cfg st =
      (if cfg.replicaUpperThreshold < (st.allocatedReplicas : ℚ) / (st.replicas : ℚ) then
        { scale := true,
          replicas :=
            if 0 < cfg.maxReplicasCount ∧
                cfg.maxReplicasCount < ceilQ ((st.replicas : ℚ) * cfg.scaleFactor) then
              cfg.maxReplicasCount
            else ceilQ ((st.replicas : ℚ) * cfg.scaleFactor) }
      else if (st.allocatedReplicas : ℚ) / (st.replicas : ℚ) < cfg.replicaLowerThreshold ∧
          cfg.minReplicasCount < st.replicas then
        { scale := true, replicas := ceilQ ((st.replicas : ℚ) / cfg.scaleFactor) }
      else { scale := false, replicas := st.replicas }) := rfl

lemma finalClamp_le (cfg : Config) (x : Decision) (h : 0 < cfg.maxReplicasCount) :
    (finalClamp cfg x).replicas ≤ cfg.maxReplicasCount := by
  unfold finalClamp
  split
  · simp
  · next hc => omega

/-- `clampBounds` zeta-reduced (definitional restatement). -/
lemma clampBounds_def (cfg : Config) (x : Int) :
    clampBounds cfg x =
      (if 0 < cfg.maxReplicasCount ∧
          cfg.maxReplicasCount < (if x < cfg.minReplicasCount then cfg.minReplicasCount else x) then
        cfg.maxReplicasCount
      else if x < cfg.minReplicasCount then cfg.minReplicasCount else x) := rfl

lemma clampBounds_le (cfg : Config) (x : Int) (h : 0 < cfg.maxReplicasCount) :
    clampBounds cfg x ≤ cfg.maxReplicasCount := by
  rw [clampBounds_def]
  by_cases hxm : x < cfg.minReplicasCount <;>
    · simp only [hxm, if_true, if_false]
      split
      · exact le_refl _
      · next hc => omega

lemma capacityDecision_le (cfg : Config) (current : Int) (room : Counter)
    (h : 0 < cfg.maxReplicasCount) :
    (capacityDecision cfg current room).replicas ≤ cfg.maxReplicasCount := by
  rw [capacityDecision_def]
  split
  · next hne => exact clampBounds_le cfg _ h
  · next hne =>
    simp only [not_not] at hne
    simpa [← hne] using clampBounds_le cfg _ h

/-- `handleAutoscale` zeta-reduced (definitional restatement). -/
lemma handleAutoscale_def (cfg : Config) (req : FleetAutoscaleRequest) :
    handleAutoscale cfg req =
      (if cfg.fixedReplicasOverrideEnabled then
        match fixedReplicasValue req with
        | some value =>
            match atoi value with
            | none => Except.error "Invalid fixedReplicas value. Must be an integer."
            | some replicas =>
                if replicas < 0 then
                  Except.error "Invalid fixedReplicas value. Must be >= 0."
                else
                  Except.ok (finalClamp cfg { scale := true, replicas := toInt32 replicas })
        | none => Except.ok (finalClamp cfg { scale := false, replicas := req.status.replicas })
      else if req.status.replicas ≠ 0 then
        match roomsCounter req.status with
        | some room =>
            if 0 < room.capacity ∧ 0 < req.status.replicas then
              Except.ok (capacityDecision cfg req.status.replicas room)
            else
              Except.ok (finalClamp cfg (thresholdDecision cfg req.status))
        | none => Except.ok (finalClamp cfg (thresholdDecision cfg req.status))
      else Except.ok (finalClamp cfg { scale := false, replicas := req.status.replicas })) :=
  rfl

/-- Every `Except.ok` result of the handler is either a final-clamped
decision or a capacity-path decision. -/
lemma handleAutoscale_ok_shape (cfg : Config) (req : FleetAutoscaleRequest)
    (d : Decision) (hd : handleAutoscale cfg req = Except.ok d) :
    (∃ x, d = finalClamp cfg x) ∨
      (∃ room, d = capacityDecision cfg req.status.replicas room) := by
  rw [handleAutoscale_def] at hd
  split at hd
  · split at hd
    · split at hd
      · exact absurd hd (by simp)
      · split at hd
        · exact absurd hd (by simp)
        · exact Or.inl ⟨_, (Except.ok.inj hd).symm⟩
    · exact Or.inl ⟨_, (Except.ok.inj hd).symm⟩
  · split at hd
    · split at hd
      · split at hd
        · exact Or.inr ⟨_, (Except.ok.inj hd).symm⟩
        · exact Or.inl ⟨_, (Except.ok.inj hd).symm⟩
      · exact Or.inl ⟨_, (Except.ok.inj hd).symm⟩
    · exact Or.inl ⟨_, (Except.ok.inj hd).symm⟩

/-- C5: whenever the handler produces a decision and a max bound is
configured, the returned replica count never exceeds the bound — the
final clamp covers every late path, and the capacity early return
performs its own max clamp on both of its outcomes. -/
theorem C5_max_clamp (cfg : Config) (req : FleetAutoscaleRequest) (d : Decision)
    (hmax : 0 < cfg.maxReplicasCount)
    (hd : handleAutoscale cfg req = Except.ok d) :
    d.replicas ≤ cfg.maxReplicasCount := by
  rcases handleAutoscale_ok_shape cfg req d hd with ⟨x, rfl⟩ | ⟨room, rfl⟩
  · exact finalClamp_le cfg x hmax
  · exact capacityDecision_le cfg _ room hmax

/-- C5 witness: a concrete run (fixed override requesting 50 with
max 6) whose returned count is capped at the bound. -/
theorem C5_max_clamp_witness :
    handleAutoscale ⟨2, 7/10, 3/10, 2, 6, true⟩
      ⟨⟨3, 0, none⟩, some [("fixedReplicas", "50")]⟩ = Except.ok ⟨true, 6⟩ ∧
    (Decision.replicas ⟨true, 6⟩ : Int) ≤ (6 : Int) := by
  have hrun : handleAutoscale (⟨2, 7/10, 3/10, 2, 6, true⟩ : Config)
      (⟨⟨3, 0, none⟩, some [("fixedReplicas", "50")]⟩ : FleetAutoscaleRequest) =
      Except.ok (finalClamp ⟨2, 7/10, 3/10, 2, 6, true⟩
        { scale := true, replicas := toInt32 50 }) :=
    handleAutoscale_override_ok _ _ "50" 50 rfl (by decide) (by decide) (by norm_num)
  have hval : finalClamp (⟨2, 7/10, 3/10, 2, 6, true⟩ : Config)
      { scale := true, replicas := toInt32 50 } = ⟨true, 6⟩ := by
    norm_num [finalClamp, toInt32]
  refine ⟨by rw [hrun, hval], ?_⟩
  exact C5_max_clamp ⟨2, 7/10, 3/10, 2, 6, true⟩
    ⟨⟨3, 0, none⟩, some [("fixedReplicas", "50")]⟩ ⟨true, 6⟩ (by norm_num)
    (by rw [hrun, hval])

/-- C8: with zero current replicas and no applicable fixed override,
neither scaling mode runs (the guards at main.go lines 188 and 197
precede every division) and the handler answers no-scale with the
unchanged count. -/
theorem C8_zero_replicas (cfg : Config) (req : FleetAutoscaleRequest)
    (hcur : req.status.replicas = 0)
    (hover : cfg.fixedReplicasOverrideEnabled = true → fixedReplicasValue req = none) :
    handleAutoscale cfg req =
      Except.ok { scale := false, replicas := req.status.replicas } := by
  rw [handleAutoscale_zero cfg req hcur hover, hcur]
  unfold finalClamp
  rw [if_neg (by rintro ⟨h1, h2⟩; simp at h2; omega)]

/-- C8 witness: zero replicas, override disabled, a counter present —
the answer is still no-scale at zero. -/
theorem C8_zero_replicas_witness :
    handleAutoscale ⟨2, 7/10, 3/10, 2, 9, false⟩
      ⟨⟨0, 0, some [("rooms", ⟨50, 100⟩)]⟩, none⟩ = Except.ok ⟨false, 0⟩ :=
  C8_zero_replicas ⟨2, 7/10, 3/10, 2, 9, false⟩
    ⟨⟨0, 0, some [("rooms", ⟨50, 100⟩)]⟩, none⟩ rfl (fun h => by simp at h)

/-- C9: fixed override enabled with no `fixedReplicas` annotation (nil
map or absent key) evaluates neither scaling mode; the response is
no-scale at the current count, except that the final clamp caps counts
above a configured max bound. -/
theorem C9_override_missing_value (cfg : Config) (req : FleetAutoscaleRequest)
    (hover : cfg.fixedReplicasOverrideEnabled = true)
    (hs : fixedReplicasValue req = none) :
    handleAutoscale cfg req =
      Except.ok
        (if 0 < cfg.maxReplicasCount ∧ cfg.maxReplicasCount < req.status.replicas then
          { scale := true, replicas := cfg.maxReplicasCount }
        else { scale := false, replicas := req.status.replicas }) := by
  rw [handleAutoscale_override_missing cfg req hover hs]
  rfl

/-- C9 witness: override on, no annotation, current 10 above max 5 —
the final clamp returns scale at the bound. -/
theorem C9_override_missing_value_witness :
    handleAutoscale ⟨2, 7/10, 3/10, 2, 5, true⟩ ⟨⟨10, 4, none⟩, none⟩ =
      Except.ok ⟨true, 5⟩ := by
  have h := C9_override_missing_value ⟨2, 7/10, 3/10, 2, 5, true⟩
    ⟨⟨10, 4, none⟩, none⟩ rfl rfl
  rw [h]
  norm_num

/-- With the override disabled, every request produces a decision:
all branches of the non-override paths answer `Except.ok`. -/
lemma handleAutoscale_no_override_ok (cfg : Config) (req : FleetAutoscaleRequest)
    (hover : cfg.fixedReplicasOverrideEnabled = false) :
    ∃ d, handleAutoscale cfg req = Except.ok d := by
  rw [handleAutoscale_def]
  simp only [hover, Bool.false_eq_true, if_false]
  split
  · split
    · split
      · exact ⟨_, rfl⟩
      · exact ⟨_, rfl⟩
    · exact ⟨_, rfl⟩
  · exact ⟨_, rfl⟩

/-- C3: the handler rejects the request (HTTP 400, no decision) exactly
when the override is enabled, the `fixedReplicas` annotation is present,
and its value fails to parse or is negative; in every other situation a
decision is produced. -/
theorem C3_invalid_input_iff (cfg : Config) (req : FleetAutoscaleRequest) :
    ((∃ msg, handleAutoscale cfg req = Except.error msg) ↔
      (cfg.fixedReplicasOverrideEnabled = true ∧
        ∃ s, fixedReplicasValue req = some s ∧
          (atoi s = none ∨ ∃ v, atoi s = some v ∧ v < 0))) ∧
    ((∃ d, handleAutoscale cfg req = Except.ok d) ↔
      ¬(cfg.fixedReplicasOverrideEnabled = true ∧
        ∃ s, fixedReplicasValue req = some s ∧
          (atoi s = none ∨ ∃ v, atoi s = some v ∧ v < 0))) := by
  by_cases hover : cfg.fixedReplicasOverrideEnabled = true
  · cases hs : fixedReplicasValue req with
    | none =>
      have h := handleAutoscale_override_missing cfg req hover hs
      exact ⟨by simp [h, hs], by simp [h, hs]⟩
    | some s =>
      cases hv : atoi s with
      | none =>
        have h : handleAutoscale cfg req =
            Except.error "Invalid fixedReplicas value. Must be an integer." := by
          rw [handleAutoscale_def]
          simp [hover, hs, hv]
        exact ⟨by simp [h, hover, hs, hv], by simp [h, hover, hs, hv]⟩
      | some v =>
        by_cases hneg : v < 0
        · have h : handleAutoscale cfg req =
              Except.error "Invalid fixedReplicas value. Must be >= 0." := by
            rw [handleAutoscale_def]
            simp [hover, hs, hv, hneg]
          exact ⟨by simp [h, hover, hs, hv, hneg], by simp [h, hover, hs, hv, hneg]⟩
        · have h := handleAutoscale_override_ok cfg req s v hover hs hv (not_lt.mp hneg)
          exact ⟨by simp [h, hover, hs, hv, hneg], by simp [h, hover, hs, hv, hneg]⟩
  · obtain ⟨d, hd⟩ :=
      handleAutoscale_no_override_ok cfg req (eq_false_of_ne_true hover)
    exact ⟨by simp [hd, hover], by simp [hd, hover]⟩

/-- C1 counterexample: the claim's final sentence says capacity-counter
mode applies whenever the override is enabled but no `fixedReplicas`
annotation is present.  With override enabled, no annotation, a "rooms"
counter of positive capacity and one current replica, the handler
answers no-scale at 1, while the capacity-mode formula yields
scale to 20. -/
theorem C1_counterexample :
    handleAutoscale ⟨2, 7/10, 3/10, 2, 0, true⟩
      ⟨⟨1, 0, some [("rooms", ⟨50, 100⟩)]⟩, none⟩ = Except.ok ⟨false, 1⟩ ∧
    capacityDecision ⟨2, 7/10, 3/10, 2, 0, true⟩ 1 ⟨50, 100⟩ = ⟨true, 20⟩ := by
  constructor
  · rw [handleAutoscale_override_missing ⟨2, 7/10, 3/10, 2, 0, true⟩
      ⟨⟨1, 0, some [("rooms", ⟨50, 100⟩)]⟩, none⟩ rfl rfl]
    norm_num [finalClamp]
  · have e1 : ceilQ ((50 : ℚ) / capPerReplica) = 10 := by
      rw [ceilQ_eq_iff]; norm_num [capPerReplica]
    have e2 : ceilQ ((20 : ℚ)) = 20 := by
      rw [ceilQ_eq_iff]; norm_num
    rw [capacityDecision_def]
    norm_num [clampBounds_def, e1, e2]

/-- C1 (amended): capacity-counter mode applies when the override is
disabled (not merely inapplicable: an enabled override with a missing
annotation skips both scaling modes), the "rooms" counter is present,
and `capacity > 0 ∧ currentReplicas > 0`; it then returns
`target = clamp(ceil(clamp(ceil(count / 5)) * scaleFactor))` with
`scale = (target ≠ currentReplicas)`, the thresholds never being
consulted. -/
theorem C1_capacity_mode (cfg : Config) (req : FleetAutoscaleRequest) (room : Counter)
    (hover : cfg.fixedReplicasOverrideEnabled = false)
    (hroom : roomsCounter req.status = some room)
    (hcap : 0 < room.capacity)
    (hcur : 0 < req.status.replicas) :
    handleAutoscale cfg req =
      Except.ok
        (if clampBounds cfg
              (ceilQ ((clampBounds cfg (ceilQ ((room.count : ℚ) / capPerReplica)) : Int) *
                cfg.scaleFactor)) = req.status.replicas then
          { scale := false, replicas := req.status.replicas }
        else
          { scale := true,
            replicas :=
              clampBounds cfg
                (ceilQ ((clampBounds cfg (ceilQ ((room.count : ℚ) / capPerReplica)) : Int) *
                  cfg.scaleFactor)) }) := by
  rw [handleAutoscale_capacity cfg req room hover hroom hcap hcur, capacityDecision_def,
    ite_not]

/-- C1 witness: override disabled, rooms counter (50, 100), current 10:
base desired `ceil(50/5) = 10`, target `ceil(10 * 2) = 20`, scale. -/
theorem C1_capacity_mode_witness :
    handleAutoscale ⟨2, 7/10, 3/10, 2, 0, false⟩
      ⟨⟨10, 0, some [("rooms", ⟨50, 100⟩)]⟩, none⟩ = Except.ok ⟨true, 20⟩ := by
  have h := C1_capacity_mode ⟨2, 7/10, 3/10, 2, 0, false⟩
    ⟨⟨10, 0, some [("rooms", ⟨50, 100⟩)]⟩, none⟩ ⟨50, 100⟩ rfl (by decide)
    (by norm_num) (by norm_num)
  rw [h]
  have e1 : ceilQ ((50 : ℚ) / capPerReplica) = 10 := by
    rw [ceilQ_eq_iff]; norm_num [capPerReplica]
  have e2 : ceilQ ((20 : ℚ)) = 20 := by
    rw [ceilQ_eq_iff]; norm_num
  norm_num [clampBounds_def, e1, e2]

/-- C2 counterexample: override enabled, annotation "3", current
replicas 3 — the claim predicts `scale = (3 ≠ 3) = false`, but the
handler sets scale unconditionally (main.go line 184) and answers
scale = true at 3. -/
theorem C2_counterexample :
    handleAutoscale ⟨2, 7/10, 3/10, 2, 0, true⟩
      ⟨⟨3, 0, none⟩, some [("fixedReplicas", "3")]⟩ = Except.ok ⟨true, 3⟩ ∧
    atoi "3" = some 3 ∧
    (⟨⟨3, 0, none⟩, some [("fixedReplicas", "3")]⟩ :
      FleetAutoscaleRequest).status.replicas = 3 := by
  refine ⟨?_, by decide, rfl⟩
  rw [handleAutoscale_override_ok ⟨2, 7/10, 3/10, 2, 0, true⟩
    ⟨⟨3, 0, none⟩, some [("fixedReplicas", "3")]⟩ "3" 3 rfl (by decide) (by decide)
    (by norm_num)]
  norm_num [finalClamp, toInt32]

/-- C2 (amended): with override enabled and a present annotation parsing
to a nonnegative v, the handler returns scale = true unconditionally
(even when v equals currentReplicas) and replicas = v — taken through
Go's int32 conversion — capped by the final max clamp when a max bound
is set. -/
theorem C2_fixed_override (cfg : Config) (req : FleetAutoscaleRequest)
    (s : String) (v : Int)
    (hover : cfg.fixedReplicasOverrideEnabled = true)
    (hs : fixedReplicasValue req = some s)
    (hv : atoi s = some v) (h0 : 0 ≤ v) :
    handleAutoscale cfg req =
      Except.ok
        { scale := true,
          replicas :=
            if 0 < cfg.maxReplicasCount ∧ cfg.maxReplicasCount < toInt32 v then
              cfg.maxReplicasCount
            else toInt32 v } := by
  rw [handleAutoscale_override_ok cfg req s v hover hs hv h0]
  by_cases hc : 0 < cfg.maxReplicasCount ∧ cfg.maxReplicasCount < toInt32 v
  · simp [finalClamp, hc]
  · simp [finalClamp, hc]

/-- C2 witness: annotation "7" with current 3 and no max bound gives
scale = true at 7. -/
theorem C2_fixed_override_witness :
    handleAutoscale ⟨2, 7/10, 3/10, 2, 0, true⟩
      ⟨⟨3, 0, none⟩, some [("fixedReplicas", "7")]⟩ = Except.ok ⟨true, 7⟩ := by
  have h := C2_fixed_override ⟨2, 7/10, 3/10, 2, 0, true⟩
    ⟨⟨3, 0, none⟩, some [("fixedReplicas", "7")]⟩ "7" 7 rfl (by decide) (by decide)
    (by norm_num)
  rw [h]
  norm_num [toInt32]

/-- C4 counterexample: min 5, current 6, allocated 1 (fraction 1/6
below 3/10, current above min) — the down-scale branch returns
`ceil(6/2) = 3`, strictly below minReplicas = 5, so the claimed clamp
up to minReplicas does not exist. -/
theorem C4_counterexample :
    handleAutoscale ⟨2, 7/10, 3/10, 5, 0, false⟩ ⟨⟨6, 1, none⟩, none⟩ =
      Except.ok ⟨true, 3⟩ ∧
    ((1 : ℚ) / 6 < 3 / 10) ∧ ((5 : Int) < 6) ∧ ((3 : Int) < 5) := by
  refine ⟨?_, by norm_num, by norm_num, by norm_num⟩
  rw [handleAutoscale_threshold ⟨2, 7/10, 3/10, 5, 0, false⟩ ⟨⟨6, 1, none⟩, none⟩
    rfl (by norm_num) (fun room h => Option.noConfusion h)]
  have e3 : ceilQ ((3 : ℚ)) = 3 := by
    rw [ceilQ_eq_iff]; norm_num
  norm_num [thresholdDecision_def, finalClamp, e3]

/-- C4 (amended): utilization-threshold mode: above the upper threshold
the handler scales up to `ceil(current * scaleFactor)` capped at the max
bound; below the lower threshold with current above min it scales down
to `ceil(current / scaleFactor)` subject only to the final max clamp —
there is no clamp up to minReplicas, and the result can fall below
minReplicas. -/
theorem C4_threshold_scaling (cfg : Config) (req : FleetAutoscaleRequest)
    (hover : cfg.fixedReplicasOverrideEnabled = false)
    (hcur : req.status.replicas ≠ 0)
    (hnoroom : ∀ room, roomsCounter req.status = some room →
      ¬(0 < room.capacity ∧ 0 < req.status.replicas))
    (hlu : cfg.replicaLowerThreshold ≤ cfg.replicaUpperThreshold) :
    (cfg.replicaUpperThreshold <
        (req.status.allocatedReplicas : ℚ) / (req.status.replicas : ℚ) →
      handleAutoscale cfg req =
        Except.ok
          { scale := true,
            replicas :=
              if 0 < cfg.maxReplicasCount ∧
                  cfg.maxReplicasCount <
                    ceilQ ((req.status.replicas : ℚ) * cfg.scaleFactor) then
                cfg.maxReplicasCount
              else ceilQ ((req.status.replicas : ℚ) * cfg.scaleFactor) }) ∧
    ((req.status.allocatedReplicas : ℚ) / (req.status.replicas : ℚ) <
        cfg.replicaLowerThreshold ∧ cfg.minReplicasCount < req.status.replicas →
      handleAutoscale cfg req =
        Except.ok
          { scale := true,
            replicas :=
              if 0 < cfg.maxReplicasCount ∧
                  cfg.maxReplicasCount <
                    ceilQ ((req.status.replicas : ℚ) / cfg.scaleFactor) then
                cfg.maxReplicasCount
              else ceilQ ((req.status.replicas : ℚ) / cfg.scaleFactor) }) := by
  rw [handleAutoscale_threshold cfg req hover hcur hnoroom]
  constructor
  · intro hup
    rw [thresholdDecision_def, if_pos hup]
    by_cases hc : 0 < cfg.maxReplicasCount ∧
        cfg.maxReplicasCount < ceilQ ((req.status.replicas : ℚ) * cfg.scaleFactor)
    · simp [finalClamp, hc]
    · simp [finalClamp, hc]
  · intro hdown
    have hnotup : ¬cfg.replicaUpperThreshold <
        (req.status.allocatedReplicas : ℚ) / (req.status.replicas : ℚ) :=
      not_lt.mpr (le_of_lt (lt_of_lt_of_le hdown.1 hlu))
    rw [thresholdDecision_def, if_neg hnotup, if_pos hdown]
    by_cases hc : 0 < cfg.maxReplicasCount ∧
        cfg.maxReplicasCount < ceilQ ((req.status.replicas : ℚ) / cfg.scaleFactor)
    · simp [finalClamp, hc]
    · simp [finalClamp, hc]

/-- C4 witness: current 10, allocated 8, default thresholds, factor 2,
no max bound: fraction 0.8 exceeds 0.7 and the handler scales to 20. -/
theorem C4_threshold_scaling_witness :
    handleAutoscale ⟨2, 7/10, 3/10, 2, 0, false⟩ ⟨⟨10, 8, none⟩, none⟩ =
      Except.ok ⟨true, 20⟩ := by
  have h := (C4_threshold_scaling ⟨2, 7/10, 3/10, 2, 0, false⟩ ⟨⟨10, 8, none⟩, none⟩
    rfl (by norm_num) (fun room hr => Option.noConfusion hr) (by norm_num)).1
    (by norm_num)
  rw [h]
  have e : ceilQ ((20 : ℚ)) = 20 := by
    rw [ceilQ_eq_iff]; norm_num
  norm_num [e]

/-- C6 counterexample: fraction 5/10 lies strictly between 3/10 and
7/10, current 10 exceeds max 5 — the final clamp still fires and the
handler answers scale = true at 5, not no-scale at 10. -/
theorem C6_counterexample :
    handleAutoscale ⟨2, 7/10, 3/10, 2, 5, false⟩ ⟨⟨10, 5, none⟩, none⟩ =
      Except.ok ⟨true, 5⟩ ∧
    ((3 / 10 : ℚ) < (5 : ℚ) / 10) ∧ ((5 : ℚ) / 10 < 7 / 10) := by
  refine ⟨?_, by norm_num, by norm_num⟩
  rw [handleAutoscale_threshold ⟨2, 7/10, 3/10, 2, 5, false⟩ ⟨⟨10, 5, none⟩, none⟩
    rfl (by norm_num) (fun room h => Option.noConfusion h)]
  norm_num [thresholdDecision_def, finalClamp]

/-- C6 (amended): in utilization-threshold mode with the allocated
fraction strictly inside the band, the raw decision is no-scale at the
current count; it survives unchanged unless a max bound is set and the
current count exceeds it, in which case the final clamp answers
scale = true at the bound. -/
theorem C6_noop_band (cfg : Config) (req : FleetAutoscaleRequest)
    (hover : cfg.fixedReplicasOverrideEnabled = false)
    (hcur : req.status.replicas ≠ 0)
    (hnoroom : ∀ room, roomsCounter req.status = some room →
      ¬(0 < room.capacity ∧ 0 < req.status.replicas))
    (hlow : cfg.replicaLowerThreshold <
      (req.status.allocatedReplicas : ℚ) / (req.status.replicas : ℚ))
    (hup : (req.status.allocatedReplicas : ℚ) / (req.status.replicas : ℚ) <
      cfg.replicaUpperThreshold) :
    handleAutoscale cfg req =
      Except.ok
        (if 0 < cfg.maxReplicasCount ∧ cfg.maxReplicasCount < req.status.replicas then
          { scale := true, replicas := cfg.maxReplicasCount }
        else { scale := false, replicas := req.status.replicas }) := by
  rw [handleAutoscale_threshold cfg req hover hcur hnoroom, thresholdDecision_def,
    if_neg (not_lt.mpr (le_of_lt hup)),
    if_neg (by rintro ⟨h1, h2⟩; exact absurd h1 (not_lt.mpr (le_of_lt hlow)))]
  rfl

/-- C6 witness: fraction 1/2 inside the band with no max bound — the
handler answers no-scale at the current count 10. -/
theorem C6_noop_band_witness :
    handleAutoscale ⟨2, 7/10, 3/10, 2, 0, false⟩ ⟨⟨10, 5, none⟩, none⟩ =
      Except.ok ⟨false, 10⟩ := by
  have h := C6_noop_band ⟨2, 7/10, 3/10, 2, 0, false⟩ ⟨⟨10, 5, none⟩, none⟩
    rfl (by norm_num) (fun room hr => Option.noConfusion hr) (by norm_num) (by norm_num)
  rw [h]
  norm_num

set_option maxHeartbeats 1000000 in
/-- `getEnvVariables` exits (returns `none`) exactly when some set
variable failed its parse. -/
lemma getEnvVariables_none_iff (env : Env) :
    getEnvVariables env = none ↔
      (env.scaleFactorV = EnvVal.malformed ∨ env.upTriggerV = EnvVal.malformed ∨
        env.downTriggerV = EnvVal.malformed ∨ env.minReplicasV = EnvVal.malformed ∨
        env.maxReplicasV = EnvVal.malformed) := by
  rcases env with ⟨sfv, upv, downv, minv, maxv, fixv⟩
  cases sfv <;> cases upv <;> cases downv <;> cases minv <;> cases maxv <;>
    simp [getEnvVariables]

set_option maxHeartbeats 1000000 in
/-- On a run with no parse failure, the loaded configuration is the
stage values followed by the two normalizations of lines 95-102. -/
lemma getEnvVariables_eq (env : Env) (h : noParseFailure env) :
    getEnvVariables env =
      some
        { scaleFactor := effScaleFactor env
          replicaUpperThreshold := effUpperThreshold env
          replicaLowerThreshold :=
            if effUpperThreshold env / effScaleFactor env ≤ effLowerThreshold env then
              effUpperThreshold env / (effScaleFactor env + 1)
            else effLowerThreshold env
          minReplicasCount :=
            if 0 < effMaxReplicas env ∧ effMaxReplicas env < effMinReplicas env then
              effMaxReplicas env
            else effMinReplicas env
          maxReplicasCount := effMaxReplicas env
          fixedReplicasOverrideEnabled := effFixedEnabled env } := by
  obtain ⟨h1, h2, h3, h4, h5⟩ := h
  rcases env with ⟨sfv, upv, downv, minv, maxv, fixv⟩
  cases sfv <;> cases upv <;> cases downv <;> cases minv <;> cases maxv <;>
    simp_all [getEnvVariables, effScaleFactor, effUpperThreshold, effLowerThreshold,
      effMinReplicas, effMaxReplicas, effFixedEnabled]

/-- Any configuration produced by `getEnvVariables` has a scale factor
above 1, a positive upper threshold, a lower threshold strictly below
`upper / scaleFactor` (the anti-flap normalization), and nonnegative
bounds. -/
lemma getEnvVariables_invariant (env : Env) (cfg : Config)
    (h : getEnvVariables env = some cfg) :
    1 < cfg.scaleFactor ∧ 0 < cfg.replicaUpperThreshold ∧
      cfg.replicaLowerThreshold < cfg.replicaUpperThreshold / cfg.scaleFactor ∧
      0 ≤ cfg.minReplicasCount ∧ 0 ≤ cfg.maxReplicasCount := by
  have hne : ¬(env.scaleFactorV = EnvVal.malformed ∨ env.upTriggerV = EnvVal.malformed ∨
      env.downTriggerV = EnvVal.malformed ∨ env.minReplicasV = EnvVal.malformed ∨
      env.maxReplicasV = EnvVal.malformed) := by
    intro hm
    rw [(getEnvVariables_none_iff env).mpr hm] at h
    exact Option.noConfusion h
  push_neg at hne
  rw [getEnvVariables_eq env hne] at h
  injection h with h
  subst h
  have hsf : 1 < effScaleFactor env := by
    unfold effScaleFactor
    cases env.scaleFactorV with
    | parsed f =>
      dsimp only
      split
      · assumption
      · norm_num
    | unset => norm_num
    | malformed => norm_num
  have hupper : 0 < effUpperThreshold env := by
    unfold effUpperThreshold
    cases env.upTriggerV with
    | parsed t =>
      dsimp only
      split
      · next ht => linarith
      · norm_num
    | unset => norm_num
    | malformed => norm_num
  have hminE : 0 ≤ effMinReplicas env := by
    unfold effMinReplicas
    cases env.minReplicasV with
    | parsed m =>
      dsimp only
      split
      · assumption
      · norm_num
    | unset => norm_num
    | malformed => norm_num
  have hmaxE : 0 ≤ effMaxReplicas env := by
    unfold effMaxReplicas
    cases env.maxReplicasV with
    | parsed m =>
      dsimp only
      split
      · assumption
      · norm_num
    | unset => norm_num
    | malformed => norm_num
  refine ⟨hsf, hupper, ?_, ?_, hmaxE⟩
  · dsimp only
    split
    · exact div_lt_div_of_pos_left hupper (by linarith) (by linarith)
    · next hc => exact not_le.mp hc
  · dsimp only
    split
    · next hc => exact le_of_lt hc.1
    · exact hminE

/-- C10: configuration loading terminates the process (`none`) exactly
when a set variable fails its parse; a value that parses but fails its
range guard (`SCALE_FACTOR <= 1`, `REPLICA_UPSCALE_TRIGGER <= 0.1`,
`REPLICA_DOWNSCALE_TRIGGER >= upper/scaleFactor`, negative counts) is
silently discarded: the block leaves the compiled-in default, and the
loaded configuration is built from these block results (followed by the
two cross-field normalizations). -/
theorem C10_config_loading (env : Env) :
    (getEnvVariables env = none ↔
      (env.scaleFactorV = EnvVal.malformed ∨ env.upTriggerV = EnvVal.malformed ∨
        env.downTriggerV = EnvVal.malformed ∨ env.minReplicasV = EnvVal.malformed ∨
        env.maxReplicasV = EnvVal.malformed)) ∧
    (∀ _ : noParseFailure env,
      getEnvVariables env =
        some
          { scaleFactor := effScaleFactor env
            replicaUpperThreshold := effUpperThreshold env
            replicaLowerThreshold :=
              if effUpperThreshold env / effScaleFactor env ≤ effLowerThreshold env then
                effUpperThreshold env / (effScaleFactor env + 1)
              else effLowerThreshold env
            minReplicasCount :=
              if 0 < effMaxReplicas env ∧ effMaxReplicas env < effMinReplicas env then
                effMaxReplicas env
              else effMinReplicas env
            maxReplicasCount := effMaxReplicas env
            fixedReplicasOverrideEnabled := effFixedEnabled env }) ∧
    (∀ f : ℚ, env.scaleFactorV = EnvVal.parsed f → f ≤ 1 → effScaleFactor env = 2) ∧
    (∀ t : ℚ, env.upTriggerV = EnvVal.parsed t → t ≤ 1 / 10 →
      effUpperThreshold env = 7 / 10) ∧
    (∀ t : ℚ, env.downTriggerV = EnvVal.parsed t →
      effUpperThreshold env / effScaleFactor env ≤ t → effLowerThreshold env = 3 / 10) ∧
    (∀ m : Int, env.minReplicasV = EnvVal.parsed m → m < 0 → effMinReplicas env = 2) ∧
    (∀ m : Int, env.maxReplicasV = EnvVal.parsed m → m < 0 → effMaxReplicas env = 0) := by
  refine ⟨getEnvVariables_none_iff env, getEnvVariables_eq env, ?_, ?_, ?_, ?_, ?_⟩
  · intro f hf hle
    simp [effScaleFactor, hf, not_lt.mpr hle]
  · intro t ht hle
    simp only [effUpperThreshold, ht]
    rw [if_neg (not_lt.mpr hle)]
  · intro t ht hle
    simp [effLowerThreshold, ht, not_lt.mpr hle]
  · intro m hm hneg
    simp [effMinReplicas, hm, not_le.mpr hneg]
  · intro m hm hneg
    simp [effMaxReplicas, hm, not_le.mpr hneg]

/-- C10 witness: `SCALE_FACTOR` set to 0.5 (parses, fails the `> 1`
guard): loading succeeds and produces the all-defaults configuration. -/
theorem C10_config_loading_witness :
    getEnvVariables ⟨.parsed (1/2), .unset, .unset, .unset, .unset, none⟩ =
      some ⟨2, 7/10, 3/10, 2, 0, false⟩ ∧
    effScaleFactor ⟨.parsed (1/2), .unset, .unset, .unset, .unset, none⟩ = 2 := by
  have h := C10_config_loading ⟨.parsed (1/2), .unset, .unset, .unset, .unset, none⟩
  have hsf := h.2.2.1 (1/2) rfl (by norm_num)
  have hrun := h.2.1 (by refine ⟨?_, ?_, ?_, ?_, ?_⟩ <;> simp)
  refine ⟨?_, hsf⟩
  rw [hrun]
  norm_num [effScaleFactor, effUpperThreshold, effLowerThreshold, effMinReplicas,
    effMaxReplicas, effFixedEnabled]

/-- C7 (amended): for a configuration produced by the loader and an
up-scale from fraction above the upper threshold, re-evaluating with the
new replica count and the same allocated count: when the up-scale was
capped by the max bound, the down-scale condition cannot hold at all;
otherwise the down-scale branch may fire (the new fraction can drop
below the lower threshold because `ceil(n * scaleFactor)` exceeds
`n * scaleFactor`), but its target `ceil(n2 / scaleFactor)` is never
below the original count n, so the pair of decisions never drops below
the starting point. -/
theorem C7_anti_flap (env : Env) (cfg : Config) (n a : Int) (d1 : Decision)
    (hcfg : getEnvVariables env = some cfg)
    (hover : cfg.fixedReplicasOverrideEnabled = false)
    (hn : 0 < n)
    (hup : cfg.replicaUpperThreshold < (a : ℚ) / (n : ℚ))
    (hd1 : handleAutoscale cfg ⟨⟨n, a, none⟩, none⟩ = Except.ok d1)
    (hdown : (a : ℚ) / (d1.replicas : ℚ) < cfg.replicaLowerThreshold ∧
      cfg.minReplicasCount < d1.replicas) :
    handleAutoscale cfg ⟨⟨d1.replicas, a, none⟩, none⟩ =
      Except.ok ⟨true, ceilQ ((d1.replicas : ℚ) / cfg.scaleFactor)⟩ ∧
    n ≤ ceilQ ((d1.replicas : ℚ) / cfg.scaleFactor) := by
  obtain ⟨hsf, hupos, hlu, hmin0, hmax0⟩ := getEnvVariables_invariant env cfg hcfg
  have hnQ : (0 : ℚ) < (n : ℚ) := by exact_mod_cast hn
  have hsf0 : (0 : ℚ) < cfg.scaleFactor := by linarith
  rw [handleAutoscale_threshold cfg ⟨⟨n, a, none⟩, none⟩ hover (ne_of_gt hn)
    (fun room h => Option.noConfusion h), thresholdDecision_def] at hd1
  simp only [if_pos hup] at hd1
  by_cases hc : 0 < cfg.maxReplicasCount ∧
      cfg.maxReplicasCount < ceilQ ((n : ℚ) * cfg.scaleFactor)
  · -- the up-scale was capped at the max bound: down-scale condition impossible
    exfalso
    rw [if_pos hc] at hd1
    have hd1' : d1 = ⟨true, cfg.maxReplicasCount⟩ := by
      have h := Except.ok.inj hd1
      rw [← h]
      simp [finalClamp]
    subst hd1'
    simp only at hdown
    have hmQ : (0 : ℚ) < (cfg.maxReplicasCount : ℚ) := by exact_mod_cast hc.1
    have hmlt : (cfg.maxReplicasCount : ℚ) < (n : ℚ) * cfg.scaleFactor := by
      have h := hc.2
      rwa [lt_ceilQ] at h
    have ha : cfg.replicaUpperThreshold * (n : ℚ) < (a : ℚ) :=
      (lt_div_iff₀ hnQ).mp hup
    have key : cfg.replicaLowerThreshold < (a : ℚ) / (cfg.maxReplicasCount : ℚ) := by
      have h1 : cfg.replicaUpperThreshold / cfg.scaleFactor =
          (cfg.replicaUpperThreshold * (n : ℚ)) / (cfg.scaleFactor * (n : ℚ)) := by
        rw [div_eq_div_iff (ne_of_gt hsf0) (by positivity)]
        ring
      have h2 : (cfg.replicaUpperThreshold * (n : ℚ)) / (cfg.scaleFactor * (n : ℚ)) <
          (a : ℚ) / (cfg.scaleFactor * (n : ℚ)) :=
        (div_lt_div_iff_of_pos_right (by positivity)).mpr ha
      have h3 : (a : ℚ) / (cfg.scaleFactor * (n : ℚ)) <
          (a : ℚ) / (cfg.maxReplicasCount : ℚ) := by
        apply div_lt_div_of_pos_left _ hmQ _
        · linarith [mul_pos hupos hnQ]
        · linarith [mul_comm cfg.scaleFactor (n : ℚ)]
      calc cfg.replicaLowerThreshold < cfg.replicaUpperThreshold / cfg.scaleFactor := hlu
        _ = _ := h1
        _ < _ := h2
        _ < _ := h3
    exact absurd hdown.1 (not_lt.mpr (le_of_lt key))
  · -- no cap: the second decision is a down-scale, never below n
    rw [if_neg hc] at hd1
    have hd1' : d1 = ⟨true, ceilQ ((n : ℚ) * cfg.scaleFactor)⟩ := by
      have h := Except.ok.inj hd1
      rw [← h]
      simp only [finalClamp]
      rw [if_neg (by simpa using hc)]
    subst hd1'
    simp only at hdown ⊢
    set n2 := ceilQ ((n : ℚ) * cfg.scaleFactor) with hn2def
    have hnle : (n : ℚ) ≤ (n : ℚ) * cfg.scaleFactor := by nlinarith
    have hn2ge : n ≤ n2 := by
      have h := ceilQ_mono hnle
      rwa [ceilQ_intCast] at h
    have hn2pos : 0 < n2 := lt_of_lt_of_le hn hn2ge
    have hn2Q : (0 : ℚ) < (n2 : ℚ) := by exact_mod_cast hn2pos
    have hceil_le : ceilQ ((n2 : ℚ) / cfg.scaleFactor) ≤ n2 := by
      have h1 : (n2 : ℚ) / cfg.scaleFactor ≤ (n2 : ℚ) :=
        div_le_self (le_of_lt hn2Q) (le_of_lt hsf)
      calc ceilQ ((n2 : ℚ) / cfg.scaleFactor) ≤ ceilQ ((n2 : ℚ)) := ceilQ_mono h1
        _ = n2 := ceilQ_intCast n2
    have hceil_ge : n ≤ ceilQ ((n2 : ℚ) / cfg.scaleFactor) := by
      have h1 : (n : ℚ) ≤ (n2 : ℚ) / cfg.scaleFactor := by
        rw [le_div_iff₀ hsf0]
        calc (n : ℚ) * cfg.scaleFactor ≤ (ceilQ ((n : ℚ) * cfg.scaleFactor) : ℚ) :=
          le_ceilQ _
        _ = (n2 : ℚ) := by rw [hn2def]
      have h2 := ceilQ_mono h1
      rwa [ceilQ_intCast] at h2
    refine ⟨?_, hceil_ge⟩
    rw [handleAutoscale_threshold cfg ⟨⟨n2, a, none⟩, none⟩ hover (ne_of_gt hn2pos)
      (fun room h => Option.noConfusion h), thresholdDecision_def]
    simp only
    have hnotup : ¬cfg.replicaUpperThreshold < (a : ℚ) / (n2 : ℚ) := by
      have hlt : cfg.replicaLowerThreshold < cfg.replicaUpperThreshold := by
        calc cfg.replicaLowerThreshold < cfg.replicaUpperThreshold / cfg.scaleFactor :=
          hlu
        _ < cfg.replicaUpperThreshold := div_lt_self hupos hsf
      exact not_lt.mpr (le_of_lt (lt_trans hdown.1 hlt))
    rw [if_neg hnotup, if_pos hdown]
    have hnofinal : ¬(0 < cfg.maxReplicasCount ∧
        cfg.maxReplicasCount < ceilQ ((n2 : ℚ) / cfg.scaleFactor)) := by
      rintro ⟨h1, h2⟩
      have h3 := not_and.mp hc h1
      omega
    simp [finalClamp, hnofinal]

/-- C7 counterexample: the loader accepts `SCALE_FACTOR = 1.2`,
`REPLICA_DOWNSCALE_TRIGGER = 0.58` (0.58 < 0.7/1.2) and `MIN = 0`.
From one replica fully allocated (fraction 1 > 0.7) the up-scale goes to
`ceil(1.2) = 2`; re-evaluating at 2 replicas with the same allocated
count gives fraction 1/2, which is below the lower threshold 0.58 with
current 2 above min 0 — the down-scale condition IS satisfied, against
the claim that the new fraction is always at least the lower
threshold. -/
theorem C7_counterexample :
    getEnvVariables ⟨.parsed (6/5), .unset, .parsed (29/50), .parsed 0, .unset, none⟩ =
      some ⟨6/5, 7/10, 29/50, 0, 0, false⟩ ∧
    handleAutoscale ⟨6/5, 7/10, 29/50, 0, 0, false⟩ ⟨⟨1, 1, none⟩, none⟩ =
      Except.ok ⟨true, 2⟩ ∧
    ((7/10 : ℚ) < (1 : ℚ) / (1 : ℚ)) ∧
    ((1 : ℚ) / (2 : ℚ) < 29/50 ∧ (0 : Int) < 2) ∧
    handleAutoscale ⟨6/5, 7/10, 29/50, 0, 0, false⟩ ⟨⟨2, 1, none⟩, none⟩ =
      Except.ok ⟨true, 2⟩ := by
  refine ⟨?_, ?_, by norm_num, ⟨by norm_num, by norm_num⟩, ?_⟩
  · have h := getEnvVariables_eq
      ⟨.parsed (6/5), .unset, .parsed (29/50), .parsed 0, .unset, none⟩
      (by refine ⟨?_, ?_, ?_, ?_, ?_⟩ <;> simp)
    rw [h]
    norm_num [effScaleFactor, effUpperThreshold, effLowerThreshold, effMinReplicas,
      effMaxReplicas, effFixedEnabled]
  · rw [handleAutoscale_threshold ⟨6/5, 7/10, 29/50, 0, 0, false⟩ ⟨⟨1, 1, none⟩, none⟩
      rfl (by norm_num) (fun room h => Option.noConfusion h)]
    have e : ceilQ ((6/5 : ℚ)) = 2 := by rw [ceilQ_eq_iff]; norm_num
    norm_num [thresholdDecision_def, finalClamp, e]
  · rw [handleAutoscale_threshold ⟨6/5, 7/10, 29/50, 0, 0, false⟩ ⟨⟨2, 1, none⟩, none⟩
      rfl (by norm_num) (fun room h => Option.noConfusion h)]
    have e : ceilQ ((5/3 : ℚ)) = 2 := by rw [ceilQ_eq_iff]; norm_num
    norm_num [thresholdDecision_def, finalClamp, e]

/-- C7 witness: in the counterexample configuration the amended theorem
applies: the second decision is the down-scale `ceil(2/1.2) = 2`, which
is not below the original count 1. -/
theorem C7_anti_flap_witness :
    handleAutoscale ⟨6/5, 7/10, 29/50, 0, 0, false⟩ ⟨⟨2, 1, none⟩, none⟩ =
      Except.ok ⟨true, 2⟩ ∧ (1 : Int) ≤ 2 := by
  have hcfg : getEnvVariables
      ⟨.parsed (6/5), .unset, .parsed (29/50), .parsed 0, .unset, none⟩ =
      some ⟨6/5, 7/10, 29/50, 0, 0, false⟩ := by
    have h := getEnvVariables_eq
      ⟨.parsed (6/5), .unset, .parsed (29/50), .parsed 0, .unset, none⟩
      (by refine ⟨?_, ?_, ?_, ?_, ?_⟩ <;> simp)
    rw [h]
    norm_num [effScaleFactor, effUpperThreshold, effLowerThreshold, effMinReplicas,
      effMaxReplicas, effFixedEnabled]
  have hrun1 : handleAutoscale ⟨6/5, 7/10, 29/50, 0, 0, false⟩ ⟨⟨1, 1, none⟩, none⟩ =
      Except.ok ⟨true, 2⟩ := by
    rw [handleAutoscale_threshold ⟨6/5, 7/10, 29/50, 0, 0, false⟩ ⟨⟨1, 1, none⟩, none⟩
      rfl (by norm_num) (fun room h => Option.noConfusion h)]
    have e : ceilQ ((6/5 : ℚ)) = 2 := by rw [ceilQ_eq_iff]; norm_num
    norm_num [thresholdDecision_def, finalClamp, e]
  have h := C7_anti_flap ⟨.parsed (6/5), .unset, .parsed (29/50), .parsed 0, .unset, none⟩
    ⟨6/5, 7/10, 29/50, 0, 0, false⟩ 1 1 ⟨true, 2⟩ hcfg rfl (by norm_num) (by norm_num)
    hrun1 (by constructor <;> norm_num)
  have e : ceilQ ((5/3 : ℚ)) = 2 := by rw [ceilQ_eq_iff]; norm_num
  obtain ⟨h1, h2⟩ := h
  norm_num [e] at h1 h2
  exact ⟨h1, by norm_num⟩

/-- C3 witness: the spec's Scenario D — override enabled, annotation
"-1" — is rejected with no decision produced. -/
theorem C3_invalid_input_iff_witness :
    ∃ msg, handleAutoscale ⟨2, 7/10, 3/10, 2, 0, true⟩
      ⟨⟨3, 0, none⟩, some [("fixedReplicas", "-1")]⟩ = Except.error msg :=
  (C3_invalid_input_iff ⟨2, 7/10, 3/10, 2, 0, true⟩
    ⟨⟨3, 0, none⟩, some [("fixedReplicas", "-1")]⟩).1.mpr
    ⟨rfl, "-1", by decide, Or.inr ⟨-1, by decide, by norm_num⟩⟩
